import Mathlib

/-!
Verification of the draft/record versioning workflow of
invenio-drafts-resources against its specification.

The development shallowly embeds the data model
(`invenio_drafts_resources/records/models.py`) and the workflow engine
(`invenio_drafts_resources/services/records/service.py`,
class `RecordDraftService`).  The persistent store (pid rows, draft rows,
record rows, parent-state rows) and the search index are modelled as an
explicit state `St`; external collaborators (the permission checker and the
schema validator) are an environment `Env`.  Each service operation is a
function `Env → St → ... → St × Except Err _`: an `Except.error` result is
returned together with the caller's original state, modelling exception
propagation with transactional rollback (all index mutations in the source
occur after every guard, so the index can be part of the rolled-back state).
-/

/-- Decidable equality for `Except`, so that concrete runs of the
operations can be settled by `decide`. -/
instance {ε α : Type} [DecidableEq ε] [DecidableEq α] :
    DecidableEq (Except ε α) := fun
  | Except.ok a, Except.ok b =>
    if h : a = b then isTrue (by rw [h])
    else isFalse (by intro he; cases he; exact h rfl)
  | Except.error a, Except.error b =>
    if h : a = b then isTrue (by rw [h])
    else isFalse (by intro he; cases he; exact h rfl)
  | Except.ok _, Except.error _ => isFalse (by intro h; cases h)
  | Except.error _, Except.ok _ => isFalse (by intro h; cases h)

/-- Errors raised by the workflow engine (spec section 7 taxonomy). -/
inductive Err where
  | notFound
  | permissionDenied
  | conflict
  | validationFailed
deriving DecidableEq

/-- Status of a persistent identifier (`invenio_pidstore` PIDStatus; the
repository's provider.py sets the default status of new pids to NEW). -/
inductive PidStatus where
  | new
  | registered
deriving DecidableEq

/-- Content payload of a draft or record: field/value pairs, so that a
validator can keep a validated subset. -/
abbrev Content := List (String × String)

/-- A persistent identifier row: target UUID and status. -/
structure PidRow where
  target : Nat
  status : PidStatus
deriving DecidableEq

/-- A draft row: `DraftMetadataBase` of records/models.py plus the record
API fields used by the service (parent id, content, revision counter,
attached pid, soft-deletion flag). -/
structure DraftRow where
  parent_id : Option Nat
  content : Content
  revision_id : Nat
  fork_version_id : Option Nat
  expires_at : Option Nat
  is_deleted : Bool
  pid : Nat
deriving DecidableEq

/-- A published record row. -/
structure RecordRow where
  parent_id : Option Nat
  content : Content
  revision_id : Nat
  pid : Nat
deriving DecidableEq

/-- A parent-state row (`ParentRecordStateMixin` of records/models.py):
latest published version, pending next-version draft, count, current
index position. -/
structure ParentStateRow where
  latest_id : Option Nat
  next_draft_id : Option Nat
  count : Nat
  current_index : Nat
deriving DecidableEq

/-- The transactional store plus the search index.  `pids` is keyed by pid
value, `drafts` and `records` by UUID, `parents` by parent id.  `idxDrafts`
and `idxRecords` are the sets of UUIDs present in the draft and record
indexes.  `fresh` models the allocator for new UUIDs/pid values. -/
structure St where
  pids : List (Nat × PidRow)
  drafts : List (Nat × DraftRow)
  records : List (Nat × RecordRow)
  parents : List (Nat × ParentStateRow)
  idxDrafts : List Nat
  idxRecords : List Nat
  fresh : Nat
deriving DecidableEq

/-- External collaborators (spec section 6): the permission checker
(`require_permission`) and the schema validator.  `load data` returns the
validated subset of `data` together with the collected error messages,
matching `schema.load`; `raise_errors=True` call sites fail exactly when
the returned error list is nonempty. -/
structure Env where
  perm : Nat → String → Bool
  load : Content → Content × List String

/-- Association-list lookup (first binding wins), modelling primary-key
row lookup. -/
def findA {α : Type} : List (Nat × α) → Nat → Option α
  | [], _ => none
  | (k', v) :: t, k => if k' = k then some v else findA t k

/-- Association-list update/insert at a key, modelling a row write. -/
def setA {α : Type} : List (Nat × α) → Nat → α → List (Nat × α)
  | [], k, v => [(k, v)]
  | (k', v') :: t, k, v =>
    if k' = k then (k, v) :: t else (k', v') :: setA t k v

/-- Association-list deletion of a key, modelling a hard row delete. -/
def eraseA {α : Type} : List (Nat × α) → Nat → List (Nat × α)
  | [], _ => []
  | (k', v') :: t, k =>
    if k' = k then eraseA t k else (k', v') :: eraseA t k

/-- Ensure a UUID is present in an index (indexing is idempotent). -/
def idxAdd (l : List Nat) (u : Nat) : List Nat :=
  if u ∈ l then l else u :: l

/-- Remove a UUID from an index. -/
def idxRemove (l : List Nat) (u : Nat) : List Nat :=
  l.filter (fun x => x ≠ u)

/-- `draft_cls.get_record(id, with_deleted=...)`: fetch a draft row by
UUID; a soft-deleted row is visible only when `withDeleted` is true. -/
def getDraft (s : St) (u : Nat) (withDeleted : Bool) : Option DraftRow :=
  match findA s.drafts u with
  | none => none
  | some d => if d.is_deleted ∧ withDeleted = false then none else some d

/-- Modelled from the spec: the resolver contract of section 4.1 for
`draft_cls.pid.resolve(id_, registered_only=False)` (the resolver itself
lives in the external invenio-records-resources PIDField).  Looks up the
pid row regardless of status, then the live draft row for its target
UUID; NotFound when either is missing. -/
def resolveDraft (s : St) (idv : Nat) : Except Err (Nat × DraftRow) :=
  match findA s.pids idv with
  | none => Except.error Err.notFound
  | some p =>
    match getDraft s p.target false with
    | none => Except.error Err.notFound
    | some d => Except.ok (p.target, d)

/-- Modelled from the spec: the resolver contract of section 4.1 for
`record_cls.pid.resolve(id_)` with the default `registered_only=True`:
NotFound when the pid is missing, not REGISTERED, or the record row does
not exist. -/
def resolveRecord (s : St) (idv : Nat) : Except Err (Nat × RecordRow) :=
  match findA s.pids idv with
  | none => Except.error Err.notFound
  | some p =>
    if p.status = PidStatus.registered then
      match findA s.records p.target with
      | none => Except.error Err.notFound
      | some r => Except.ok (p.target, r)
    else Except.error Err.notFound

/-- Modelled from the spec: the `check_revision_id` gate of section 5 —
a caller-supplied revision token, when present, must equal the stored
revision counter; a missing token passes. -/
def checkRevisionId (stored : Nat) (tok : Option Nat) : Bool :=
  match tok with
  | none => true
  | some t => t == stored

/-- The `expires_at` column default of `DraftMetadataBase`
(records/models.py lines 108-113): when no value is supplied, the column
defaults to `datetime.utcnow` at row creation; it is nullable, but the
default is the creation timestamp, not NULL. -/
def expiresAtDefault (utcnow : Nat) (supplied : Option (Option Nat)) : Option Nat :=
  match supplied with
  | some v => v
  | none => some utcnow

/-- Result projection returned by the service operations (`result_item`):
the entity's UUID, content, revision counter, and the collected
(non-fatal) validation errors. -/
structure Res where
  uuid : Nat
  content : Content
  revision_id : Nat
  errors : List String
deriving DecidableEq

/-- `RecordDraftService.update_draft` (service.py lines 86-122): resolve
the draft, check the revision token, check the `update_draft` permission,
load the caller data leniently (`raise_errors=False`), write the validated
subset to the draft, commit (revision bump), index the draft, and return
the result together with the collected errors. -/
def updateDraft (env : Env) (s : St) (idv identity : Nat) (data : Content)
    (revisionId : Option Nat) : St × Except Err Res :=
  match resolveDraft s idv with
  | Except.error e => (s, Except.error e)
  | Except.ok (u, draft) =>
    if checkRevisionId draft.revision_id revisionId = true then
      if env.perm identity "update_draft" = true then
        let draft' : DraftRow :=
          { draft with
              content := (env.load data).1
              revision_id := draft.revision_id + 1 }
        ({ s with
             drafts := setA s.drafts u draft'
             idxDrafts := idxAdd s.idxDrafts u },
         Except.ok
           { uuid := u, content := draft'.content
             revision_id := draft'.revision_id
             errors := (env.load data).2 })
      else (s, Except.error Err.permissionDenied)
    else (s, Except.error Err.conflict)

/-- `RecordDraftService.create` (service.py lines 124-135).  Modelled from
the spec: the body delegates to `self._create(..., raise_errors=False)` of
the external base RecordService; per spec section 4.2 it checks the
`create` permission, validates leniently, allocates a UUID and a NEW-status
pid bound to it, creates the parent lineage state, persists the draft
(with the model's `expires_at` default), indexes it, and returns the draft
plus the collected errors. -/
def create (env : Env) (s : St) (identity : Nat) (data : Content)
    (utcnow : Nat) : St × Except Err Res :=
  if env.perm identity "create" = true then
    let u := s.fresh
    let draft : DraftRow :=
      { parent_id := some u
        content := (env.load data).1
        revision_id := 0
        fork_version_id := none
        expires_at := expiresAtDefault utcnow none
        is_deleted := false
        pid := u }
    ({ s with
         pids := setA s.pids u { target := u, status := PidStatus.new }
         drafts := setA s.drafts u draft
         parents := setA s.parents u
           { latest_id := none, next_draft_id := none
             count := 1, current_index := 1 }
         idxDrafts := idxAdd s.idxDrafts u
         fresh := s.fresh + 1 },
     Except.ok
       { uuid := u, content := draft.content, revision_id := 0
         errors := (env.load data).2 })
  else (s, Except.error Err.permissionDenied)

/-- `RecordDraftService.edit` (service.py lines 137-202): if a live draft
resolves, check `can_edit` and return it unchanged; otherwise resolve the
registered record, check `can_edit`, then either undelete the soft-deleted
draft row (overwriting content from the record, reattaching its pid, and
setting `fork_version_id` to the record's revision counter) or — the
exceptional path, when no draft row ever existed — create a fresh draft
row (the source marks it `TODO: BELOW WILL NOT WORK - it's missing
parent`, so its parent is unset); finally commit, index the draft, and
re-index the record. -/
def edit (env : Env) (s : St) (idv identity : Nat) : St × Except Err Res :=
  match resolveDraft s idv with
  | Except.ok (u, draft) =>
    if env.perm identity "can_edit" = true then
      (s, Except.ok
        { uuid := u, content := draft.content
          revision_id := draft.revision_id, errors := [] })
    else (s, Except.error Err.permissionDenied)
  | Except.error _ =>
    match resolveRecord s idv with
    | Except.error e => (s, Except.error e)
    | Except.ok (u, record) =>
      if env.perm identity "can_edit" = true then
        let draft : DraftRow :=
          match findA s.drafts u with
          | some d =>
            if d.is_deleted then
              { d with
                  is_deleted := false
                  content := record.content
                  pid := record.pid
                  fork_version_id := some record.revision_id }
            else d
          | none =>
            { parent_id := none
              content := record.content
              revision_id := 0
              fork_version_id := some record.revision_id
              expires_at := none
              is_deleted := false
              pid := record.pid }
        let draft' : DraftRow :=
          match findA s.drafts u with
          | some _ => { draft with revision_id := draft.revision_id + 1 }
          | none => draft
        ({ s with
             drafts := setA s.drafts u draft'
             idxDrafts := idxAdd s.idxDrafts u
             idxRecords := idxAdd s.idxRecords u },
         Except.ok
           { uuid := u, content := draft'.content
             revision_id := draft'.revision_id, errors := [] })
      else (s, Except.error Err.permissionDenied)

/-- `RecordDraftService.publish` (service.py lines 204-266): check the
`publish` permission, resolve the draft, re-validate its content strictly
(`raise_errors=True` fails exactly when errors were collected); then, if a
record already exists for the UUID (`draft.is_published`, modelled from
the spec as the existence of a published record row for the UUID), update
its content from the draft and bump its revision counter, else create the
record from the draft's content with the revision counter initialized;
soft-delete the draft, commit, delete the draft from the index and index
the record.  The source does NOT register the pid nor touch the parent
state here (line 252 is `TODO: state: unset next, update latest`), so this
embedding leaves `pids` and `parents` unchanged. -/
def publish (env : Env) (s : St) (idv identity : Nat) : St × Except Err Res :=
  if env.perm identity "publish" = true then
    match resolveDraft s idv with
    | Except.error e => (s, Except.error e)
    | Except.ok (u, draft) =>
      if (env.load draft.content).2 = [] then
        let record : RecordRow :=
          match findA s.records u with
          | some r =>
            { r with
                content := draft.content
                revision_id := r.revision_id + 1 }
          | none =>
            { parent_id := draft.parent_id
              content := draft.content
              revision_id := 0
              pid := draft.pid }
        ({ s with
             records := setA s.records u record
             drafts := setA s.drafts u { draft with is_deleted := true }
             idxDrafts := idxRemove s.idxDrafts u
             idxRecords := idxAdd s.idxRecords u },
         Except.ok
           { uuid := u, content := record.content
             revision_id := record.revision_id, errors := [] })
      else (s, Except.error Err.validationFailed)
  else (s, Except.error Err.permissionDenied)

/-- Modelled from the spec: `self.draft_cls.parent.next_draft(record)`
(service.py line 281 is marked `TODO implement`; the systemfield is not
under src/).  Per spec section 4.2 step 3 of new_version, it returns the
live draft pointed to by the parent state's `next_draft_id`, if any. -/
def nextDraftOf (s : St) (record : RecordRow) : Option (Nat × DraftRow) :=
  match record.parent_id with
  | none => none
  | some pu =>
    match findA s.parents pu with
    | none => none
    | some ps =>
      match ps.next_draft_id with
      | none => none
      | some du =>
        match getDraft s du false with
        | none => none
        | some dr => some (du, dr)

/-- `RecordDraftService.new_version` (service.py lines 268-313): resolve
the published record, check `can_new_version`, and if the lineage already
has a pending next-version draft return it without any state change.
Otherwise create the next-version draft — modelled from the spec
(`create_draft` at line 290 is not implemented under src/): a new UUID, a
NEW-status pid, `fork_version_id = null`, the same parent, and the parent
state's `next_draft_id` set to the new draft — then commit and index it. -/
def newVersion (env : Env) (s : St) (idv identity : Nat) : St × Except Err Res :=
  match resolveRecord s idv with
  | Except.error e => (s, Except.error e)
  | Except.ok (_, record) =>
    if env.perm identity "can_new_version" = true then
      match nextDraftOf s record with
      | some (du, dr) =>
        (s, Except.ok
          { uuid := du, content := dr.content
            revision_id := dr.revision_id, errors := [] })
      | none =>
        let u := s.fresh
        let draft : DraftRow :=
          { parent_id := record.parent_id
            content := record.content
            revision_id := 0
            fork_version_id := none
            expires_at := none
            is_deleted := false
            pid := u }
        let parents' :=
          match record.parent_id with
          | none => s.parents
          | some pu =>
            match findA s.parents pu with
            | none => s.parents
            | some ps =>
              setA s.parents pu
                { ps with
                    next_draft_id := some u
                    count := ps.count + 1
                    current_index := ps.current_index + 1 }
        ({ s with
             pids := setA s.pids u { target := u, status := PidStatus.new }
             drafts := setA s.drafts u draft
             parents := parents'
             idxDrafts := idxAdd s.idxDrafts u
             fresh := s.fresh + 1 },
         Except.ok
           { uuid := u, content := draft.content
             revision_id := 0, errors := [] })
    else (s, Except.error Err.permissionDenied)

/-- `RecordDraftService.delete_draft` (service.py lines 315-364): resolve
the draft, check the revision token, check the `delete_draft` permission;
then `force = False if record else True` — soft-delete when a published
record exists for the UUID, hard-delete otherwise; finally remove the
draft from the index (refresh) and re-index the record when present. -/
def deleteDraft (env : Env) (s : St) (idv identity : Nat)
    (revisionId : Option Nat) : St × Except Err Bool :=
  match resolveDraft s idv with
  | Except.error e => (s, Except.error e)
  | Except.ok (u, draft) =>
    if checkRevisionId draft.revision_id revisionId = true then
      if env.perm identity "delete_draft" = true then
        let hasRecord := (findA s.records u).isSome
        ({ s with
             drafts :=
               if hasRecord then
                 setA s.drafts u { draft with is_deleted := true }
               else eraseA s.drafts u
             idxDrafts := idxRemove s.idxDrafts u
             idxRecords :=
               if hasRecord then idxAdd s.idxRecords u else s.idxRecords },
         Except.ok true)
      else (s, Except.error Err.permissionDenied)
    else (s, Except.error Err.conflict)

/-- The guard checks an operation can perform before its writes. -/
inductive Guard where
  | resolveDraftG
  | resolveRecordG
  | revisionG
  | permissionG
  | strictValidateG
deriving DecidableEq

/-- Guard sequence of `update_draft`, in source order (service.py lines
89, 91, 94): resolve, revision check, permission check. -/
def updateDraftGuards : List Guard :=
  [Guard.resolveDraftG, Guard.revisionG, Guard.permissionG]

/-- Guard sequence of `delete_draft`, in source order (service.py lines
317, 319, 322): resolve, revision check, permission check. -/
def deleteDraftGuards : List Guard :=
  [Guard.resolveDraftG, Guard.revisionG, Guard.permissionG]

/-- Guard sequence of `publish`, in source order (service.py lines 219,
222, 236): permission check, resolve, strict validation.  `publish` has no
`revision_id` parameter and performs no revision comparison. -/
def publishGuards : List Guard :=
  [Guard.permissionG, Guard.resolveDraftG, Guard.strictValidateG]

/-- Guard sequence of `edit`, in source order (service.py lines 146, 149,
159, 162).  `edit` has no `revision_id` parameter and performs no revision
comparison. -/
def editGuards : List Guard :=
  [Guard.resolveDraftG, Guard.permissionG, Guard.resolveRecordG,
   Guard.permissionG]

/-- Guard sequence of `new_version`, in source order (service.py lines
272, 275).  `new_version` has no `revision_id` parameter and performs no
revision comparison. -/
def newVersionGuards : List Guard :=
  [Guard.resolveRecordG, Guard.permissionG]

/-- Looking up the key just written returns the written row. -/
theorem findA_setA_self {α : Type} (l : List (Nat × α)) (k : Nat) (v : α) :
    findA (setA l k v) k = some v := by
  induction l with
  | nil => simp [setA, findA]
  | cons h t ih =>
    obtain ⟨k', v'⟩ := h
    by_cases hk : k' = k
    · simp [setA, hk, findA]
    · simp [setA, hk, findA, ih]

/-- Looking up a hard-deleted key finds nothing. -/
theorem findA_eraseA_self {α : Type} (l : List (Nat × α)) (k : Nat) :
    findA (eraseA l k) k = none := by
  induction l with
  | nil => simp [eraseA, findA]
  | cons h t ih =>
    obtain ⟨k', v'⟩ := h
    by_cases hk : k' = k
    · simp [eraseA, hk, ih]
    · simp [eraseA, hk, findA, ih]

/-- Environment in which every permission is granted and the validator
accepts everything unchanged. -/
def envAll : Env := { perm := fun _ _ => true, load := fun c => (c, []) }

/-- Environment in which every permission is granted but strict validation
of any content collects an error. -/
def envBad : Env := { perm := fun _ _ => true, load := fun c => (c, ["invalid"]) }

/-- Environment in which every permission is denied. -/
def envDeny : Env := { perm := fun _ _ => false, load := fun c => (c, []) }

/-- Environment with a lenient validator that keeps only the `title`
field and reports one error. -/
def envLen : Env :=
  { perm := fun _ _ => true
    load := fun c => (c.filter (fun kv => kv.1 = "title"), ["bad field"]) }

/-- A live, never-published draft (UUID 10, pid value 1, parent 20, and
the parent state's pending `next_draft_id` pointing at it). -/
def draftLive : DraftRow :=
  { parent_id := some 20, content := [("title", "A")], revision_id := 0
    fork_version_id := none, expires_at := none, is_deleted := false
    pid := 1 }

/-- Store with only `draftLive` and its lineage: no record, pid 1 in NEW
status targeting UUID 10. -/
def stLive : St :=
  { pids := [(1, { target := 10, status := PidStatus.new })]
    drafts := [(10, draftLive)]
    records := []
    parents := [(20,
      { latest_id := none, next_draft_id := some 10, count := 1
        current_index := 1 })]
    idxDrafts := [10], idxRecords := [], fresh := 100 }

/-- The published record of the `stRec` fixture (UUID 11, revision 3). -/
def recPub : RecordRow :=
  { parent_id := some 21, content := [("title", "R")], revision_id := 3
    pid := 2 }

/-- The soft-deleted draft row of the `stRec` fixture. -/
def draftDel : DraftRow :=
  { parent_id := some 21, content := [("title", "old")], revision_id := 4
    fork_version_id := some 2, expires_at := none, is_deleted := true
    pid := 2 }

/-- Registered pid row of the `stRec` fixture. -/
def pidReg : PidRow := { target := 11, status := PidStatus.registered }

/-- Store with a published record (UUID 11) whose draft row is
soft-deleted: the setting of a `edit` after a publish or draft delete. -/
def stRec : St :=
  { pids := [(2, pidReg)]
    drafts := [(11, draftDel)]
    records := [(11, recPub)]
    parents := [(21,
      { latest_id := some 11, next_draft_id := none, count := 1
        current_index := 1 })]
    idxDrafts := [], idxRecords := [11], fresh := 200 }

/-- The live draft of the `stBoth` fixture. -/
def draftBoth : DraftRow :=
  { parent_id := some 22, content := [("title", "D")], revision_id := 6
    fork_version_id := some 1, expires_at := none, is_deleted := false
    pid := 3 }

/-- Store where a published record (UUID 12) is shadowed by a live edit
draft with the same UUID. -/
def stBoth : St :=
  { pids := [(3, { target := 12, status := PidStatus.registered })]
    drafts := [(12, draftBoth)]
    records := [(12,
      { parent_id := some 22, content := [("title", "C")], revision_id := 1
        pid := 3 })]
    parents := [(22,
      { latest_id := some 12, next_draft_id := none, count := 1
        current_index := 1 })]
    idxDrafts := [12], idxRecords := [12], fresh := 300 }

/-- Registered pid row of the `stNext` fixture. -/
def pidNext : PidRow := { target := 13, status := PidStatus.registered }

/-- The published record of the `stNext` fixture. -/
def recNext : RecordRow :=
  { parent_id := some 23, content := [("title", "P")], revision_id := 0
    pid := 4 }

/-- The pending next-version draft of the `stNext` fixture (UUID 14). -/
def draftNext : DraftRow :=
  { parent_id := some 23, content := [("title", "N")], revision_id := 0
    fork_version_id := none, expires_at := none, is_deleted := false
    pid := 5 }

/-- Parent state of the `stNext` fixture, with `next_draft_id = 14`. -/
def psNext : ParentStateRow :=
  { latest_id := some 13, next_draft_id := some 14, count := 2
    current_index := 2 }

/-- Store with a published record (UUID 13) whose lineage already has a
pending next-version draft (UUID 14). -/
def stNext : St :=
  { pids := [(4, pidNext)]
    drafts := [(14, draftNext)]
    records := [(13, recNext)]
    parents := [(23, psNext)]
    idxDrafts := [14], idxRecords := [13], fresh := 400 }

/-- C1: publish is all-or-nothing — for every draft whose content fails
strict validation, publish fails with the validation error before any
write, and the draft rows, record rows, parent states, and both indexes
are left exactly as they were before the call. -/
theorem publish_validation_failure_rolls_back
    (env : Env) (s : St) (idv identity u : Nat) (draft : DraftRow)
    (hperm : env.perm identity "publish" = true)
    (hres : resolveDraft s idv = Except.ok (u, draft))
    (hval : (env.load draft.content).2 ≠ []) :
    publish env s idv identity = (s, Except.error Err.validationFailed) ∧
    (publish env s idv identity).1.drafts = s.drafts ∧
    (publish env s idv identity).1.records = s.records ∧
    (publish env s idv identity).1.parents = s.parents ∧
    (publish env s idv identity).1.idxDrafts = s.idxDrafts ∧
    (publish env s idv identity).1.idxRecords = s.idxRecords := by
  have h1 : publish env s idv identity = (s, Except.error Err.validationFailed) := by
    simp [publish, hperm, hres, hval]
  exact ⟨h1, by rw [h1], by rw [h1], by rw [h1], by rw [h1], by rw [h1]⟩

/-- Witness for C1: publishing the live draft of `stLive` under the
always-rejecting validator fails with the validation error and leaves the
state untouched. -/
theorem publish_validation_failure_rolls_back_witness :
    publish envBad stLive 1 7 = (stLive, Except.error Err.validationFailed) :=
  (publish_validation_failure_rolls_back envBad stLive 1 7 10 draftLive
    (by decide) (by decide) (by decide)).1

/-- C2: evidence for the code bug.  First publish of a never-published
draft (UUID 10, pending `next_draft_id` of its lineage, pid 1 in NEW
status) DOES create the record from the draft's content and soft-delete
the draft, but leaves the identifier status NEW instead of REGISTERED,
leaves the parent state's `latest_id` at `none` instead of UUID 10, and
leaves `next_draft_id` uncleared — the source marks exactly these updates
`TODO: state: unset next, update latest` (service.py line 252). -/
theorem publish_first_version_skips_registration_and_state :
    (publish envAll stLive 1 7).2 =
      Except.ok
        { uuid := 10, content := [("title", "A")], revision_id := 0
          errors := [] } ∧
    findA (publish envAll stLive 1 7).1.records 10 =
      some { parent_id := some 20, content := [("title", "A")]
             revision_id := 0, pid := 1 } ∧
    (getDraft (publish envAll stLive 1 7).1 10 true).map DraftRow.is_deleted =
      some true ∧
    findA (publish envAll stLive 1 7).1.pids 1 =
      some { target := 10, status := PidStatus.new } ∧
    findA (publish envAll stLive 1 7).1.parents 20 =
      some { latest_id := none, next_draft_id := some 10, count := 1
             current_index := 1 } := by decide

/-- C3 counterexample: identity 7 is denied every permission by
`envDeny`, yet `update_draft` on the live draft of `stLive` with a
mismatched revision token fails with Conflict, not PermissionDenied —
the permission check is not the first check performed. -/
theorem denied_identity_conflict_preempts_permission :
    envDeny.perm 7 "update_draft" = false ∧
    updateDraft envDeny stLive 1 7 [] (some 99) =
      (stLive, Except.error Err.conflict) ∧
    Err.conflict ≠ Err.permissionDenied := by decide

/-- C3 amended: once an operation's preceding gates pass (resolution, and
for update_draft/delete_draft the revision check), a denied identity makes
the call fail with PermissionDenied and no entity or index is mutated; but
the permission check is not always the first check performed — only
publish checks permission before resolution. -/
theorem denied_permission_fails_clean
    (env : Env) (s : St) (idv identity : Nat)
    (hdeny : ∀ a, env.perm identity a = false) :
    ((∃ u d, resolveDraft s idv = Except.ok (u, d)) →
      updateDraft env s idv identity [] none =
        (s, Except.error Err.permissionDenied) ∧
      deleteDraft env s idv identity none =
        (s, Except.error Err.permissionDenied) ∧
      edit env s idv identity = (s, Except.error Err.permissionDenied)) ∧
    publish env s idv identity = (s, Except.error Err.permissionDenied) ∧
    ((∃ u r, resolveRecord s idv = Except.ok (u, r)) →
      newVersion env s idv identity =
        (s, Except.error Err.permissionDenied)) := by
  refine ⟨?_, ?_, ?_⟩
  · rintro ⟨u, d, hres⟩
    refine ⟨?_, ?_, ?_⟩ <;>
      simp [updateDraft, deleteDraft, edit, hres, checkRevisionId, hdeny]
  · simp [publish, hdeny]
  · rintro ⟨u, r, hres⟩
    simp [newVersion, hres, hdeny]

/-- Witness for the amended C3: on `stLive` with every permission denied,
update_draft and publish both fail with PermissionDenied and return the
state unchanged. -/
theorem denied_permission_fails_clean_witness :
    updateDraft envDeny stLive 1 7 [] none =
      (stLive, Except.error Err.permissionDenied) ∧
    publish envDeny stLive 1 7 =
      (stLive, Except.error Err.permissionDenied) :=
  ⟨((denied_permission_fails_clean envDeny stLive 1 7 (fun _ => rfl)).1
      ⟨10, draftLive, by decide⟩).1,
   (denied_permission_fails_clean envDeny stLive 1 7 (fun _ => rfl)).2.1⟩

/-- C4 counterexample: publish, edit, and new_version perform no
revision-token comparison at all (they accept no revision_id argument:
their guard sequences, transcribed from the source, contain no revision
gate) — and publish writes regardless: it mutates `stLive`.  This refutes
the claim that EVERY mutating operation first compares a caller-supplied
revision token. -/
theorem three_mutating_ops_lack_revision_gate :
    Guard.revisionG ∉ publishGuards ∧
    Guard.revisionG ∉ editGuards ∧
    Guard.revisionG ∉ newVersionGuards ∧
    (publish envAll stLive 1 7).1 ≠ stLive := by decide

/-- C4 amended: only update_draft and delete_draft compare a
caller-supplied revision token against the stored revision counter, and
on mismatch they fail with Conflict before any write; publish, edit, and
new_version accept no revision token and perform no such comparison. -/
theorem revision_gate_only_in_update_and_delete
    (env : Env) (s : St) (idv identity tok u : Nat) (d : DraftRow)
    (hres : resolveDraft s idv = Except.ok (u, d))
    (hmis : tok ≠ d.revision_id) :
    updateDraft env s idv identity [] (some tok) =
      (s, Except.error Err.conflict) ∧
    deleteDraft env s idv identity (some tok) =
      (s, Except.error Err.conflict) ∧
    Guard.revisionG ∈ updateDraftGuards ∧
    Guard.revisionG ∈ deleteDraftGuards ∧
    Guard.revisionG ∉ publishGuards ∧
    Guard.revisionG ∉ editGuards ∧
    Guard.revisionG ∉ newVersionGuards := by
  refine ⟨?_, ?_, by decide, by decide, by decide, by decide, by decide⟩ <;>
    simp [updateDraft, deleteDraft, hres, checkRevisionId, hmis]

/-- Witness for the amended C4: a stale token 99 against stored revision 0
of `stLive`'s draft makes update_draft and delete_draft fail with
Conflict and leave the state unchanged. -/
theorem revision_gate_only_in_update_and_delete_witness :
    updateDraft envAll stLive 1 7 [] (some 99) =
      (stLive, Except.error Err.conflict) ∧
    deleteDraft envAll stLive 1 7 (some 99) =
      (stLive, Except.error Err.conflict) :=
  ⟨(revision_gate_only_in_update_and_delete envAll stLive 1 7 99 10 draftLive
      (by decide) (by decide)).1,
   (revision_gate_only_in_update_and_delete envAll stLive 1 7 99 10 draftLive
      (by decide) (by decide)).2.1⟩

/-- C5: edit is idempotent when a live draft exists — after the `can_edit`
permission check it returns the existing draft unchanged, performs no
store mutation and no index update (the returned state is the input
state), and a second edit with no intervening operation returns the very
same result. -/
theorem edit_live_draft_idempotent
    (env : Env) (s : St) (idv identity u : Nat) (d : DraftRow)
    (hres : resolveDraft s idv = Except.ok (u, d))
    (hperm : env.perm identity "can_edit" = true) :
    edit env s idv identity =
      (s, Except.ok
        { uuid := u, content := d.content, revision_id := d.revision_id
          errors := [] }) ∧
    edit env (edit env s idv identity).1 idv identity =
      edit env s idv identity := by
  have h1 : edit env s idv identity =
      (s, Except.ok
        { uuid := u, content := d.content, revision_id := d.revision_id
          errors := [] }) := by
    simp [edit, hres, hperm]
  exact ⟨h1, by rw [h1]; exact h1⟩

/-- Witness for C5: editing the live shadow draft of `stBoth` returns it
unchanged and a second edit gives the same answer. -/
theorem edit_live_draft_idempotent_witness :
    edit envAll stBoth 3 7 =
      (stBoth, Except.ok
        { uuid := 12, content := [("title", "D")], revision_id := 6
          errors := [] }) ∧
    edit envAll (edit envAll stBoth 3 7).1 3 7 = edit envAll stBoth 3 7 :=
  edit_live_draft_idempotent envAll stBoth 3 7 12 draftBoth
    (by decide) (by decide)

/-- C6: for a published record whose UUID has a soft-deleted draft row and
no live draft, edit undeletes that row, overwrites its content from the
record, reattaches the record's identifier to it, and sets its
`fork_version_id` to the record's current revision counter. -/
theorem edit_undeletes_soft_deleted_draft
    (env : Env) (s : St) (idv identity : Nat) (pr : PidRow)
    (rec : RecordRow) (d : DraftRow)
    (hp : findA s.pids idv = some pr)
    (hreg : pr.status = PidStatus.registered)
    (hrec : findA s.records pr.target = some rec)
    (hd : findA s.drafts pr.target = some d)
    (hdel : d.is_deleted = true)
    (hperm : env.perm identity "can_edit" = true) :
    ∃ d', findA (edit env s idv identity).1.drafts pr.target = some d' ∧
      d'.is_deleted = false ∧
      d'.content = rec.content ∧
      d'.pid = rec.pid ∧
      d'.fork_version_id = some rec.revision_id := by
  refine ⟨{ d with is_deleted := false, content := rec.content,
                   pid := rec.pid, fork_version_id := some rec.revision_id,
                   revision_id := d.revision_id + 1 },
          ?_, rfl, rfl, rfl, rfl⟩
  simp [edit, resolveDraft, resolveRecord, getDraft, hp, hreg, hrec, hd,
        hdel, hperm, findA_setA_self]

/-- Witness for C6: editing record 11 of `stRec` (whose draft row is
soft-deleted) undeletes the row with content, pid and fork taken from the
record. -/
theorem edit_undeletes_soft_deleted_draft_witness :
    ∃ d', findA (edit envAll stRec 2 7).1.drafts 11 = some d' ∧
      d'.is_deleted = false ∧
      d'.content = [("title", "R")] ∧
      d'.pid = 2 ∧
      d'.fork_version_id = some 3 :=
  edit_undeletes_soft_deleted_draft envAll stRec 2 7 pidReg recPub draftDel
    (by decide) (by decide) (by decide) (by decide) (by decide) (by decide)

/-- C7: delete_draft soft-deletes the draft row exactly when a published
record exists for the same UUID (the row is gone from a live read but
still retrievable with `with_deleted=true`), and hard-deletes it exactly
when no such record exists (the row is absent even with
`with_deleted=true`). -/
theorem delete_draft_soft_iff_record
    (env : Env) (s : St) (idv identity u : Nat) (d : DraftRow)
    (hres : resolveDraft s idv = Except.ok (u, d))
    (hperm : env.perm identity "delete_draft" = true) :
    ((findA s.records u).isSome = true →
      getDraft (deleteDraft env s idv identity none).1 u false = none ∧
      getDraft (deleteDraft env s idv identity none).1 u true =
        some { d with is_deleted := true }) ∧
    (findA s.records u = none →
      getDraft (deleteDraft env s idv identity none).1 u true = none) := by
  constructor
  · intro hrec
    constructor <;>
      simp [deleteDraft, hres, checkRevisionId, hperm, hrec, getDraft,
            findA_setA_self]
  · intro hrec
    simp [deleteDraft, hres, checkRevisionId, hperm, hrec, getDraft,
          findA_eraseA_self]

/-- Witness for C7: deleting the shadow draft of `stBoth` (record exists)
soft-deletes — invisible to a live read, visible with `with_deleted` —
while deleting the never-published draft of `stLive` removes the row
entirely. -/
theorem delete_draft_soft_iff_record_witness :
    getDraft (deleteDraft envAll stBoth 3 7 none).1 12 false = none ∧
    getDraft (deleteDraft envAll stBoth 3 7 none).1 12 true =
      some { draftBoth with is_deleted := true } ∧
    getDraft (deleteDraft envAll stLive 1 7 none).1 10 true = none :=
  ⟨((delete_draft_soft_iff_record envAll stBoth 3 7 12 draftBoth
      (by decide) (by decide)).1 (by decide)).1,
   ((delete_draft_soft_iff_record envAll stBoth 3 7 12 draftBoth
      (by decide) (by decide)).1 (by decide)).2,
   (delete_draft_soft_iff_record envAll stLive 1 7 10 draftLive
      (by decide) (by decide)).2 (by decide)⟩

/-- C8: new_version is idempotent while a next-version draft is pending —
when the lineage's parent state has `next_draft_id` pointing to a live
draft, new_version returns that draft with no state change, so two
sequential calls with no intervening publish or delete return the same
draft UUID and no second in-flight next-version draft is ever created. -/
theorem new_version_idempotent_while_pending
    (env : Env) (s : St) (idv identity pu du : Nat) (pr : PidRow)
    (rec : RecordRow) (ps : ParentStateRow) (dr : DraftRow)
    (hp : findA s.pids idv = some pr)
    (hreg : pr.status = PidStatus.registered)
    (hrec : findA s.records pr.target = some rec)
    (hparent : rec.parent_id = some pu)
    (hps : findA s.parents pu = some ps)
    (hnext : ps.next_draft_id = some du)
    (hdr : findA s.drafts du = some dr)
    (hlive : dr.is_deleted = false)
    (hperm : env.perm identity "can_new_version" = true) :
    newVersion env s idv identity =
      (s, Except.ok
        { uuid := du, content := dr.content, revision_id := dr.revision_id
          errors := [] }) ∧
    newVersion env (newVersion env s idv identity).1 idv identity =
      newVersion env s idv identity := by
  have h1 : newVersion env s idv identity =
      (s, Except.ok
        { uuid := du, content := dr.content, revision_id := dr.revision_id
          errors := [] }) := by
    simp [newVersion, resolveRecord, nextDraftOf, getDraft, hp, hreg, hrec,
          hparent, hps, hnext, hdr, hlive, hperm]
  exact ⟨h1, by rw [h1]; exact h1⟩

/-- Witness for C8: on `stNext` (pending next-version draft 14), two
sequential new_version calls both return draft 14 and leave the state
unchanged. -/
theorem new_version_idempotent_while_pending_witness :
    newVersion envAll stNext 4 7 =
      (stNext, Except.ok
        { uuid := 14, content := [("title", "N")], revision_id := 0
          errors := [] }) ∧
    newVersion envAll (newVersion envAll stNext 4 7).1 4 7 =
      newVersion envAll stNext 4 7 :=
  new_version_idempotent_while_pending envAll stNext 4 7 23 14 pidNext
    recNext psNext draftNext (by decide) (by decide) (by decide) (by decide)
    (by decide) (by decide) (by decide) (by decide) (by decide)

/-- C9: create and update_draft validate leniently — validation errors
are collected and returned alongside the result rather than raised, the
draft is still persisted with the validated subset of the data, and the
call never fails because of lenient validation, for every input data. -/
theorem lenient_validation_never_fails
    (env : Env) (s : St) (idv identity u utcnow : Nat) (data : Content)
    (d : DraftRow)
    (hres : resolveDraft s idv = Except.ok (u, d))
    (hup : env.perm identity "update_draft" = true)
    (hcr : env.perm identity "create" = true) :
    (updateDraft env s idv identity data none).2 =
      Except.ok
        { uuid := u, content := (env.load data).1
          revision_id := d.revision_id + 1, errors := (env.load data).2 } ∧
    findA (updateDraft env s idv identity data none).1.drafts u =
      some { d with content := (env.load data).1,
                    revision_id := d.revision_id + 1 } ∧
    (create env s identity data utcnow).2 =
      Except.ok
        { uuid := s.fresh, content := (env.load data).1
          revision_id := 0, errors := (env.load data).2 } ∧
    (∃ row, findA (create env s identity data utcnow).1.drafts s.fresh =
        some row ∧ row.content = (env.load data).1) := by
  refine ⟨?_, ?_, ?_, ?_⟩ <;>
    simp [updateDraft, create, hres, checkRevisionId, hup, hcr,
          findA_setA_self]

/-- Witness for C9: under the filtering lenient validator, update_draft
on `stLive` with partially invalid data succeeds, keeps only the valid
`title` field, and reports the collected error. -/
theorem lenient_validation_never_fails_witness :
    (updateDraft envLen stLive 1 7 [("title", "B"), ("junk", "x")] none).2 =
      Except.ok
        { uuid := 10, content := [("title", "B")], revision_id := 1
          errors := ["bad field"] } :=
  (lenient_validation_never_fails envLen stLive 1 7 10 0
    [("title", "B"), ("junk", "x")] draftLive
    (by decide) (by decide) (by decide)).1

/-- C10: a draft row created without an explicitly supplied `expires_at`
stores the creation timestamp (`datetime.utcnow` column default of
`DraftMetadataBase`), not NULL — a freshly created draft is not a
never-expiring draft by default. -/
theorem draft_expires_at_defaults_to_creation_time
    (env : Env) (s : St) (identity utcnow : Nat) (data : Content)
    (hperm : env.perm identity "create" = true) :
    expiresAtDefault utcnow none = some utcnow ∧
    (∃ row, findA (create env s identity data utcnow).1.drafts s.fresh =
        some row ∧ row.expires_at = some utcnow ∧ row.expires_at ≠ none) := by
  refine ⟨rfl, ?_⟩
  simp [create, hperm, findA_setA_self, expiresAtDefault]

/-- Witness for C10: creating a draft at time 555 without supplying
`expires_at` stores `some 555`. -/
theorem draft_expires_at_defaults_to_creation_time_witness :
    expiresAtDefault 555 none = some 555 ∧
    (∃ row, findA (create envAll stLive 7 [("title", "Z")] 555).1.drafts 100 =
        some row ∧ row.expires_at = some 555 ∧ row.expires_at ≠ none) :=
  draft_expires_at_defaults_to_creation_time envAll stLive 7 555
    [("title", "Z")] (by decide)
